import Mathlib

/-!
Verification development for the prediction-and-reconciliation service in
src/app.py: the schema validator (verify_data_types), the score handler
(predict), and the reconcile handler (update), together with the prediction
store backing them.

Modelling conventions:
* Parsed JSON request bodies are values of the inductive type PyVal; the
  Python runtime class of a value (what type(x) returns) is its PyKind.
* The prediction store (the peewee Prediction table) is a list of records
  in insertion order; the UNIQUE constraint on observation_id is modelled
  by the existence check performed at save time, and a rejected insert
  leaves the list unchanged (the rollback).
* The scoring artifact (columns.json, dtypes.pickle, pipeline.pickle) is
  data external to the source; it is modelled as a black-box Classifier
  record whose coerce field stands for
  pd.DataFrame([observation], columns=columns).astype(dtypes)
  (fallible, as astype can raise) and whose predict / predict_proba fields
  stand for the pipeline calls on the coerced row.
* A handler either returns a JSON payload or lets an exception escape;
  HandlerResult.exn marks the latter (Flask turns it into a 500, the
  handler itself returns no payload).
-/

/-- A parsed JSON value as Python represents it: str, int, float, bool,
None, list or dict. -/
inductive PyVal where
  | str (s : String)
  | int (n : Int)
  | float (q : Rat)
  | bool (b : Bool)
  | none
  | list (xs : List PyVal)
  | dict (fields : List (String × PyVal))

/-- The Python runtime class of a parsed JSON value. -/
inductive PyKind where
  | kstr
  | kint
  | kfloat
  | kbool
  | knone
  | klist
  | kdict
  deriving DecidableEq

/-- type(v) for a parsed JSON value. Note that a Python bool has exact
class bool, not int, even though bool subclasses int. -/
def PyVal.kind : PyVal → PyKind
  | .str _ => .kstr
  | .int _ => .kint
  | .float _ => .kfloat
  | .bool _ => .kbool
  | .none => .knone
  | .list _ => .klist
  | .dict _ => .kdict

/-- The name part of the repr of a Python class. -/
def PyKind.pyName : PyKind → String
  | .kstr => "str"
  | .kint => "int"
  | .kfloat => "float"
  | .kbool => "bool"
  | .knone => "NoneType"
  | .klist => "list"
  | .kdict => "dict"

/-- How a Python class object prints inside an f-string. -/
def PyKind.typeRepr (k : PyKind) : String :=
  "<class \x27" ++ k.pyName ++ "\x27>"

/-- How a Python list of class objects prints inside an f-string. -/
def kindListRepr (ks : List PyKind) : String :=
  "[" ++ String.intercalate ", " (ks.map PyKind.typeRepr) ++ "]"

/-- Dict lookup, data[key], as Option. A parsed JSON object has unique
keys, so first-match lookup over the association list is dict lookup. -/
def dictGet : List (String × PyVal) → String → Option PyVal
  | [], _ => Option.none
  | (k, v) :: rest, key => if k = key then some v else dictGet rest key

/-- Python str(v) for the scalar values the handlers format into
messages. The list and dict cases are an approximation (no handler in
the source reaches them with a compound value in any modelled claim). -/
def pyToStr : PyVal → String
  | .str s => s
  | .int n => toString n
  | .float q => toString q
  | .bool b => if b then "True" else "False"
  | .none => "None"
  | .list _ => "<list>"
  | .dict _ => "<dict>"

/-- The expected_types table of verify_data_types (src/app.py lines
59-72), in source order. -/
def expected_types : List (String × List PyKind) :=
  [ ("observation_id", [.kstr]),
    ("Type", [.kstr]),
    ("Date", [.kstr]),
    ("Part of a policing operation", [.kbool]),
    ("Latitude", [.kfloat, .kint]),
    ("Longitude", [.kfloat, .kint]),
    ("Gender", [.kstr]),
    ("Age range", [.kstr]),
    ("Officer-defined ethnicity", [.kstr]),
    ("Legislation", [.kstr]),
    ("Object of search", [.kstr]),
    ("station", [.kstr]) ]

/-- The loop body of verify_data_types: walk the table in order, fail on
the first missing column, then on the first column whose runtime class is
not in the allowed list. On failure the second component is the dict
literal the source builds, on success the string it returns. -/
def verifyGo (data : List (String × PyVal)) :
    List (String × List PyKind) → Bool × PyVal
  | [] => (false, .str "All data types are correct")
  | (col, expected) :: rest =>
    match dictGet data col with
    | Option.none => (true, .dict [("error", .str (col ++ " column not found"))])
    | some v =>
      if v.kind ∈ expected then
        verifyGo data rest
      else
        (true, .dict [("error", .str (col ++ " column has wrong data type. Expected "
          ++ kindListRepr expected ++ ", got " ++ v.kind.typeRepr))])

/-- verify_data_types (src/app.py lines 58-79). -/
def verify_data_types (data : List (String × PyVal)) : Bool × PyVal :=
  verifyGo data expected_types

/-- A row of the Prediction table (src/app.py lines 23-28):
observation_id TEXT UNIQUE, observation TEXT (the raw request body),
prediction FLOAT, proba FLOAT, true_class INTEGER NULL. -/
structure Prediction where
  observation_id : String
  observation : String
  prediction : Rat
  proba : Rat
  true_class : Option Int
  deriving DecidableEq

/-- The prediction store: the table rows in insertion order. -/
abbrev Store := List Prediction

/-- The black-box scoring artifact: coerce models
pd.DataFrame([observation], columns=columns).astype(dtypes), which can
raise; predict_proba models pipeline.predict_proba(obs)[0, 1]; predict
models pipeline.predict(obs) (a single-element result). -/
structure Classifier where
  coerce : List (String × PyVal) → Except String (List (String × PyVal))
  predict_proba : List (String × PyVal) → Rat
  predict : List (String × PyVal) → Rat

/-- What a Flask view ends up doing with a request: return a JSON payload,
or let an exception escape the handler. -/
inductive HandlerResult where
  | payload (v : PyVal)
  | exn (msg : String)

/-- Python int(v), as peewee IntegerField applies it when saving a
non-null true_class value. -/
def intCoerce : PyVal → Except String Int
  | .int n => .ok n
  | .bool b => .ok (if b then 1 else 0)
  | .float q => .ok (if 0 ≤ q then q.floor else q.ceil)
  | .str s =>
    match s.trim.toInt? with
    | some n => .ok n
    | Option.none => .error "ValueError"
  | _ => .error "TypeError"

/-- The value peewee writes for the true_class column: None passes
through (the field is nullable), anything else goes through int(). -/
def saveTrueClass : PyVal → Except String (Option Int)
  | .none => .ok Option.none
  | v => (intCoerce v).map some

/-- Whether a stored row matches Prediction.observation_id == idv.
Before comparing, peewee applies the db_value conversion of the TEXT
field to the bound operand (its adapt is str), so a non-string request
value is stringified and can still match a stored id: for example the
integer 5 matches a stored id "5". -/
def matchesId (idv : PyVal) (r : Prediction) : Bool :=
  r.observation_id == pyToStr idv

/-- Persisting p.save() on a fetched row: the row peewee fetched (the
first match) is overwritten in place, every other row is untouched. -/
def replaceFirst (store : Store) (idv : PyVal) (p2 : Prediction) : Store :=
  match store with
  | [] => []
  | r :: rest =>
    if matchesId idv r then p2 :: rest else r :: replaceFirst rest idv p2

/-- The predict view on POST /should_search (src/app.py lines 90-125).
raw is request.data (the body bytes, stored verbatim in the observation
column) and obs_dict the parsed body. Control flow follows the source:
validate; on failure wrap the validator message in yet another
error key; read observation_id; build the coerced row (no try/except, a
coercion error escapes); score; build the outcome response; save, and on
IntegrityError (the id already stored) roll back and attach the duplicate
message to the response. -/
def predict (clf : Classifier) (store : Store) (raw : String)
    (obs_dict : List (String × PyVal)) : HandlerResult × Store :=
  let res := verify_data_types obs_dict
  if res.1 then
    (.payload (.dict [("error", res.2)]), store)
  else
    match dictGet obs_dict "observation_id" with
    | Option.none => (.exn "KeyError: observation_id", store)
    | some idv =>
      match clf.coerce obs_dict with
      | .error e => (.exn e, store)
      | .ok obs =>
        let proba := clf.predict_proba obs
        let prediction := clf.predict obs
        let outcome := decide (prediction ≠ 0)
        let p : Prediction :=
          { observation_id := pyToStr idv, observation := raw,
            prediction := prediction, proba := proba,
            true_class := Option.none }
        if store.any (fun r => r.observation_id == pyToStr idv) then
          (.payload (.dict [("outcome", .bool outcome),
            ("error", .str ("Observation ID: \"" ++ pyToStr idv ++ "\" already exists"))]),
           store)
        else
          (.payload (.dict [("outcome", .bool outcome)]), store ++ [p])

/-- The update view on POST /search_result (src/app.py lines 128-147).
Control flow follows the source: a KeyError from reading observation_id
inside the try block is swallowed by the bare except into the generic
message, as are a missing outcome key and a save-time coercion error; but
when the id is unknown the DoesNotExist handler itself reads the id key,
and a KeyError raised there is not caught by the sibling bare
except clause, so it escapes the handler. On success the response echoes
the in-memory attributes: the id, the raw outcome value just assigned,
and the stored prediction. -/
def update (store : Store) (obs : List (String × PyVal)) :
    HandlerResult × Store :=
  match dictGet obs "observation_id" with
  | Option.none =>
    (.payload (.dict [("error", .str "error malformed request")]), store)
  | some idv =>
    match store.find? (matchesId idv) with
    | Option.none =>
      match dictGet obs "id" with
      | Option.none => (.exn "KeyError: id", store)
      | some w =>
        (.payload (.dict [("error",
          .str ("Observation ID: \"" ++ pyToStr w ++ "\" does not exist"))]), store)
    | some p =>
      match dictGet obs "outcome" with
      | Option.none =>
        (.payload (.dict [("error", .str "error malformed request")]), store)
      | some outv =>
        match saveTrueClass outv with
        | .error _ =>
          (.payload (.dict [("error", .str "error malformed request")]), store)
        | .ok tc =>
          (.payload (.dict [("observation_id", .str p.observation_id),
            ("outcome", outv),
            ("predicted_outcome", .float p.prediction)]),
           replaceFirst store idv { p with true_class := tc })

/-- The valid example observation from the spec (section 8). -/
def obsValid : List (String × PyVal) :=
  [ ("observation_id", .str "obs-1"),
    ("Type", .str "Person search"),
    ("Date", .str "2023-01-01"),
    ("Part of a policing operation", .bool false),
    ("Latitude", .float (103 / 2)),
    ("Longitude", .float (-1 / 10)),
    ("Gender", .str "Male"),
    ("Age range", .str "18-24"),
    ("Officer-defined ethnicity", .str "White"),
    ("Legislation", .str "Misuse of Drugs Act 1971"),
    ("Object of search", .str "Controlled drugs"),
    ("station", .str "metropolitan") ]

/-- A concrete classifier whose coercion accepts the row unchanged and
which always scores zero; used to evaluate the handlers on closed
inputs. -/
def clfZero : Classifier :=
  { coerce := fun o => .ok o,
    predict_proba := fun _ => 0,
    predict := fun _ => 0 }

/-- The validator walk succeeds exactly when every column of the table is
present with an allowed runtime class. -/
theorem verifyGo_fst_false_iff (data : List (String × PyVal)) :
    ∀ table : List (String × List PyKind),
      (verifyGo data table).1 = false ↔
        ∀ ce ∈ table, ∃ v, dictGet data ce.1 = some v ∧ v.kind ∈ ce.2 := by
  intro table
  induction table with
  | nil => simp [verifyGo]
  | cons head rest ih =>
    obtain ⟨col, expected⟩ := head
    cases h : dictGet data col with
    | none =>
      simp only [verifyGo, h]
      constructor
      · intro hfalse; cases hfalse
      · intro hall
        obtain ⟨v, hv, _⟩ := hall (col, expected) (List.mem_cons_self _ _)
        rw [h] at hv; cases hv
    | some v =>
      by_cases hk : v.kind ∈ expected
      · simp only [verifyGo, h, if_pos hk, ih]
        constructor
        · intro hall ce hce
          rcases List.mem_cons.mp hce with hce | hce
          · subst hce; exact ⟨v, h, hk⟩
          · exact hall ce hce
        · intro hall ce hce
          exact hall ce (List.mem_cons_of_mem _ hce)
      · simp only [verifyGo, h, if_neg hk]
        constructor
        · intro hfalse; cases hfalse
        · intro hall
          obtain ⟨w, hw, hwk⟩ := hall (col, expected) (List.mem_cons_self _ _)
          rw [h] at hw
          injection hw with hw
          subst hw
          exact absurd hwk hk

/-- Computation of the predict view on a valid observation with a fresh
id: the outcome payload is returned and the new row is appended. -/
theorem predict_success (clf : Classifier) (store : Store) (raw : String)
    (data row : List (String × PyVal)) (s : String)
    (hval : (verify_data_types data).1 = false)
    (hid : dictGet data "observation_id" = some (.str s))
    (hco : clf.coerce data = .ok row)
    (hfresh : ∀ r ∈ store, r.observation_id ≠ s) :
    predict clf store raw data =
      (.payload (.dict [("outcome", .bool (decide (clf.predict row ≠ 0)))]),
       store ++ [{ observation_id := s, observation := raw,
                   prediction := clf.predict row,
                   proba := clf.predict_proba row,
                   true_class := Option.none }]) := by
  have hany : store.any (fun r => r.observation_id == s) = false := by
    rw [List.any_eq_false]
    intro r hr
    simp only [beq_iff_eq]
    exact hfresh r hr
  simp only [predict, hval, Bool.false_eq_true, if_false, hid, hco, pyToStr, hany]

/-- Computation of the predict view when the id is already stored: the
insert is rejected, the store is unchanged, and the duplicate message is
attached to the outcome payload. -/
theorem predict_duplicate (clf : Classifier) (store : Store) (raw : String)
    (data row : List (String × PyVal)) (s : String)
    (hval : (verify_data_types data).1 = false)
    (hid : dictGet data "observation_id" = some (.str s))
    (hco : clf.coerce data = .ok row)
    (hdup : store.any (fun r => r.observation_id == s) = true) :
    predict clf store raw data =
      (.payload (.dict [("outcome", .bool (decide (clf.predict row ≠ 0))),
        ("error", .str ("Observation ID: \"" ++ s ++ "\" already exists"))]),
       store) := by
  simp only [predict, hval, Bool.false_eq_true, if_false, hid, hco, pyToStr, hdup]
  rw [if_pos trivial]

/-- Prediction.get fetches the first matching row of the store. -/
theorem find_first_decomp (pre post : Store) (p : Prediction) (s : String)
    (hpre : ∀ r ∈ pre, r.observation_id ≠ s) (hp : p.observation_id = s) :
    (pre ++ p :: post).find? (matchesId (.str s)) = some p := by
  induction pre with
  | nil =>
    simp only [List.nil_append, List.find?_cons, matchesId, pyToStr, hp,
      beq_self_eq_true]
  | cons r rest ih =>
    have hr : matchesId (.str s) r = false := by
      simp only [matchesId, pyToStr, beq_eq_false_iff_ne, ne_eq]
      exact hpre r (List.mem_cons_self _ _)
    simp only [List.cons_append, List.find?_cons, hr]
    exact ih fun r2 h2 => hpre r2 (List.mem_cons_of_mem _ h2)

/-- Saving the fetched row overwrites it in place and nothing else. -/
theorem replaceFirst_decomp (pre post : Store) (p p2 : Prediction) (s : String)
    (hpre : ∀ r ∈ pre, r.observation_id ≠ s) (hp : p.observation_id = s) :
    replaceFirst (pre ++ p :: post) (.str s) p2 = pre ++ p2 :: post := by
  induction pre with
  | nil =>
    simp only [List.nil_append, replaceFirst, matchesId, pyToStr, hp,
      beq_self_eq_true, if_true]
  | cons r rest ih =>
    have hr : matchesId (.str s) r = false := by
      simp only [matchesId, pyToStr, beq_eq_false_iff_ne, ne_eq]
      exact hpre r (List.mem_cons_self _ _)
    simp only [List.cons_append, replaceFirst, hr, Bool.false_eq_true, if_false,
      List.cons.injEq, true_and]
    exact ih fun r2 h2 => hpre r2 (List.mem_cons_of_mem _ h2)

/-- replaceFirst never changes the number of rows. -/
theorem replaceFirst_length (store : Store) (idv : PyVal) (p2 : Prediction) :
    (replaceFirst store idv p2).length = store.length := by
  induction store with
  | nil => rfl
  | cons r rest ih =>
    simp only [replaceFirst]
    by_cases h : matchesId idv r = true
    · simp [h]
    · simp [h, ih]

/-- Computation of the update view on a well-formed reconciliation
request for a stored id: the success payload echoes the record id, the
raw supplied outcome and the stored prediction, and the store changes
only at the fetched row, which gets the saved true_class. -/
theorem update_found (pre post : Store) (p : Prediction) (s : String)
    (outv : PyVal) (tc : Option Int)
    (hpre : ∀ r ∈ pre, r.observation_id ≠ s) (hp : p.observation_id = s)
    (htc : saveTrueClass outv = .ok tc) :
    update (pre ++ p :: post)
        [("observation_id", PyVal.str s), ("outcome", outv)] =
      (.payload (.dict [("observation_id", .str p.observation_id),
        ("outcome", outv),
        ("predicted_outcome", .float p.prediction)]),
       pre ++ { p with true_class := tc } :: post) := by
  have hfind := find_first_decomp pre post p s hpre hp
  have hrep := replaceFirst_decomp pre post p { p with true_class := tc } s hpre hp
  simp only [update, dictGet, if_true, if_false, hfind, htc, hrep,
    String.reduceEq, reduceIte]

/-- The update view never changes the number of stored rows; in
particular it never creates one. -/
theorem update_length (store : Store) (obs : List (String × PyVal)) :
    ((update store obs).2).length = store.length := by
  unfold update
  repeat' split
  all_goals first
    | rfl
    | exact replaceFirst_length store _ _

/-- When no stored row matches the requested id, the update view leaves
the store exactly as it was. -/
theorem update_not_found_store (store : Store) (obs : List (String × PyVal))
    (idv : PyVal)
    (hid : dictGet obs "observation_id" = some idv)
    (hfind : store.find? (matchesId idv) = Option.none) :
    (update store obs).2 = store := by
  simp only [update, hid, hfind]
  cases dictGet obs "id" with
  | none => rfl
  | some w => rfl

/-- Appending extra fields after a dict never changes the lookup of a key
the dict already binds. -/
theorem dictGet_append_of_some (data extras : List (String × PyVal))
    (k : String) (v : PyVal) (h : dictGet data k = some v) :
    dictGet (data ++ extras) k = some v := by
  induction data with
  | nil => cases h
  | cons kv rest ih =>
    obtain ⟨k2, v2⟩ := kv
    simp only [dictGet, List.cons_append] at h ⊢
    by_cases hk : k2 = k
    · rw [if_pos hk] at h ⊢; exact h
    · rw [if_neg hk] at h ⊢; exact ih h

/-- Claim C1 (code-bug evidence): reconciling an unknown observation_id
with the standard request shape does not return the documented not-found
payload. The DoesNotExist handler formats the missing key id, so a
KeyError escapes the handler (its sibling bare except clause does not
cover it); no record is created. -/
theorem update_unknown_id_raises_keyerror :
    update ([] : Store)
        [("observation_id", PyVal.str "obs-x"), ("outcome", PyVal.int 1)]
      = (HandlerResult.exn "KeyError: id", ([] : Store)) := rfl

/-- Claim C2 (code-bug evidence): on a scoring request missing every
field, the response is not the flat shape with a string under the error
key; the handler wraps the already-wrapped validator dict, producing a
nested error object naming the first column in table order. No record is
inserted. -/
theorem predict_missing_field_nested_error :
    predict clfZero ([] : Store) "" ([] : List (String × PyVal))
      = (HandlerResult.payload (.dict [("error",
          .dict [("error", .str "observation_id column not found")])]),
         ([] : Store)) := rfl

/-- Claim C4: after a first successful insert for an id, a second scoring
call reusing that id still reports its outcome together with the
duplicate-id error message, the store keeps exactly one record for the
id, and that record (the first one) is unaltered. -/
theorem second_insert_same_id_duplicate_error
    (clf : Classifier) (store : Store) (raw1 raw2 : String)
    (data1 data2 row1 row2 : List (String × PyVal)) (s : String)
    (hval1 : (verify_data_types data1).1 = false)
    (hid1 : dictGet data1 "observation_id" = some (.str s))
    (hco1 : clf.coerce data1 = .ok row1)
    (hfresh : ∀ r ∈ store, r.observation_id ≠ s)
    (hval2 : (verify_data_types data2).1 = false)
    (hid2 : dictGet data2 "observation_id" = some (.str s))
    (hco2 : clf.coerce data2 = .ok row2) :
    (predict clf store raw1 data1).2
        = store ++ [{ observation_id := s, observation := raw1,
                      prediction := clf.predict row1,
                      proba := clf.predict_proba row1,
                      true_class := Option.none }]
    ∧ predict clf (predict clf store raw1 data1).2 raw2 data2
        = (.payload (.dict [("outcome", .bool (decide (clf.predict row2 ≠ 0))),
            ("error", .str ("Observation ID: \"" ++ s ++ "\" already exists"))]),
           (predict clf store raw1 data1).2)
    ∧ ((predict clf store raw1 data1).2.countP
          (fun r => r.observation_id == s)) = 1 := by
  have h1 := predict_success clf store raw1 data1 row1 s hval1 hid1 hco1 hfresh
  have hs1 : (predict clf store raw1 data1).2
      = store ++ [{ observation_id := s, observation := raw1,
                    prediction := clf.predict row1,
                    proba := clf.predict_proba row1,
                    true_class := Option.none }] := by
    rw [h1]
  have hzero : store.countP (fun r => r.observation_id == s) = 0 := by
    rw [List.countP_eq_zero]
    intro r hr
    simp only [beq_iff_eq]
    exact hfresh r hr
  refine ⟨hs1, ?_, ?_⟩
  · rw [hs1]
    apply predict_duplicate clf _ raw2 data2 row2 s hval2 hid2 hco2
    rw [List.any_append]
    simp
  · rw [hs1, List.countP_append, hzero]
    simp [List.countP_cons]

/-- Claim C5: scoring a valid observation with a fresh id returns an
outcome payload holding a boolean, and afterwards the store holds exactly
one new record keyed by that id, carrying the raw request body verbatim,
the model decision and positive-class probability, and a null
true_class. -/
theorem score_valid_fresh_id_inserts_once
    (clf : Classifier) (store : Store) (raw : String)
    (data row : List (String × PyVal)) (s : String)
    (hval : (verify_data_types data).1 = false)
    (hid : dictGet data "observation_id" = some (.str s))
    (hco : clf.coerce data = .ok row)
    (hfresh : ∀ r ∈ store, r.observation_id ≠ s) :
    (∃ b, (predict clf store raw data).1
        = HandlerResult.payload (.dict [("outcome", .bool b)]))
    ∧ (predict clf store raw data).2
        = store ++ [{ observation_id := s, observation := raw,
                      prediction := clf.predict row,
                      proba := clf.predict_proba row,
                      true_class := Option.none }]
    ∧ (predict clf store raw data).2.countP
        (fun r => r.observation_id == s) = 1 := by
  have h := predict_success clf store raw data row s hval hid hco hfresh
  have hzero : store.countP (fun r => r.observation_id == s) = 0 := by
    rw [List.countP_eq_zero]
    intro r hr
    simp only [beq_iff_eq]
    exact hfresh r hr
  refine ⟨⟨decide (clf.predict row ≠ 0), by rw [h]⟩, by rw [h], ?_⟩
  rw [h]
  simp only [List.countP_append, hzero, List.countP_cons]
  simp

/-- The record inserted by scoring the spec example observation through
clfZero with body body-1. -/
def recOne : Prediction :=
  { observation_id := "obs-1", observation := "body-1",
    prediction := 0, proba := 0, true_class := Option.none }

/-- Witness for second_insert_same_id_duplicate_error at the spec example
observation with the zero classifier over an empty store. -/
theorem second_insert_same_id_duplicate_error_witness :
    (verify_data_types obsValid).1 = false
    ∧ (predict clfZero ([] : Store) "body-1" obsValid).2 = [recOne]
    ∧ predict clfZero [recOne] "body-2" obsValid
        = (HandlerResult.payload (.dict [("outcome", .bool false),
            ("error", .str "Observation ID: \"obs-1\" already exists")]),
           [recOne])
    ∧ [recOne].countP (fun r => r.observation_id == "obs-1") = 1 := by
  have h := second_insert_same_id_duplicate_error clfZero [] "body-1" "body-2"
    obsValid obsValid obsValid obsValid "obs-1" rfl rfl rfl
    (by intro r hr; cases hr) rfl rfl rfl
  exact ⟨rfl, h.1, h.2.1, h.2.2⟩

/-- Witness for score_valid_fresh_id_inserts_once at the spec example
observation with the zero classifier over an empty store. -/
theorem score_valid_fresh_id_inserts_once_witness :
    (verify_data_types obsValid).1 = false
    ∧ (∃ b, (predict clfZero ([] : Store) "body-1" obsValid).1
        = HandlerResult.payload (.dict [("outcome", .bool b)]))
    ∧ (predict clfZero ([] : Store) "body-1" obsValid).2 = [recOne]
    ∧ (predict clfZero ([] : Store) "body-1" obsValid).2.countP
        (fun r => r.observation_id == "obs-1") = 1 := by
  have h := score_valid_fresh_id_inserts_once clfZero [] "body-1" obsValid
    obsValid "obs-1" rfl rfl rfl (by intro r hr; cases hr)
  exact ⟨rfl, h.1, h.2.1, h.2.2⟩

/-- Claim C6: a reconciliation call for a stored id changes only that
true_class field of that record; a lookup afterwards returns the supplied value
with observation_id, observation, prediction and proba exactly as at
insertion time, and every other record untouched. -/
theorem reconcile_changes_only_true_class
    (pre post : Store) (p : Prediction) (s : String) (v : Int)
    (hpre : ∀ r ∈ pre, r.observation_id ≠ s) (hp : p.observation_id = s) :
    (update (pre ++ p :: post)
        [("observation_id", PyVal.str s), ("outcome", PyVal.int v)]).2
      = pre ++ { p with true_class := some v } :: post
    ∧ ((update (pre ++ p :: post)
        [("observation_id", PyVal.str s), ("outcome", PyVal.int v)]).2).find?
          (matchesId (.str s))
      = some { observation_id := p.observation_id,
               observation := p.observation,
               prediction := p.prediction,
               proba := p.proba,
               true_class := some v } := by
  have htc : saveTrueClass (PyVal.int v) = .ok (some v) := rfl
  have h := update_found pre post p s (PyVal.int v) (some v) hpre hp htc
  have hs : (update (pre ++ p :: post)
      [("observation_id", PyVal.str s), ("outcome", PyVal.int v)]).2
      = pre ++ { p with true_class := some v } :: post := by
    rw [h]
  refine ⟨hs, ?_⟩
  rw [hs]
  exact find_first_decomp pre post { p with true_class := some v } s hpre hp

/-- The stored record used by the reconciliation witnesses. -/
def pStored : Prediction :=
  { observation_id := "obs-1", observation := "body-1",
    prediction := 1, proba := 3 / 4, true_class := Option.none }

/-- Witness for reconcile_changes_only_true_class on a one-record
store. -/
theorem reconcile_changes_only_true_class_witness :
    (update [pStored]
        [("observation_id", PyVal.str "obs-1"), ("outcome", PyVal.int 1)]).2
      = [{ observation_id := "obs-1", observation := "body-1",
           prediction := 1, proba := 3 / 4, true_class := some 1 }]
    ∧ ((update [pStored]
        [("observation_id", PyVal.str "obs-1"), ("outcome", PyVal.int 1)]).2).find?
          (matchesId (.str "obs-1"))
      = some { observation_id := "obs-1", observation := "body-1",
               prediction := 1, proba := 3 / 4, true_class := some 1 } := by
  have h := reconcile_changes_only_true_class [] [] pStored "obs-1" 1
    (by intro r hr; cases hr) rfl
  exact ⟨h.1, h.2⟩

/-- Claim C7: reconciling the same stored id twice with the same outcome
leaves the store exactly as after one call; and the update view never
creates a record — an unmatched id leaves the store unchanged, and the
row count is preserved by every call. -/
theorem reconcile_idempotent_and_never_creates
    (pre post : Store) (p : Prediction) (s : String) (v : Int)
    (hpre : ∀ r ∈ pre, r.observation_id ≠ s) (hp : p.observation_id = s) :
    (update (update (pre ++ p :: post)
          [("observation_id", PyVal.str s), ("outcome", PyVal.int v)]).2
        [("observation_id", PyVal.str s), ("outcome", PyVal.int v)]).2
      = (update (pre ++ p :: post)
          [("observation_id", PyVal.str s), ("outcome", PyVal.int v)]).2
    ∧ (∀ (t : Store) (o : List (String × PyVal)) (idv : PyVal),
        dictGet o "observation_id" = some idv →
        t.find? (matchesId idv) = Option.none →
        (update t o).2 = t)
    ∧ ∀ (t : Store) (o : List (String × PyVal)),
        ((update t o).2).length = t.length := by
  have htc : saveTrueClass (PyVal.int v) = .ok (some v) := rfl
  have h1 := update_found pre post p s (PyVal.int v) (some v) hpre hp htc
  have h2 := update_found pre post { p with true_class := some v } s
    (PyVal.int v) (some v) hpre hp htc
  refine ⟨?_, update_not_found_store, update_length⟩
  rw [h1]
  rw [h2]

/-- Witness for reconcile_idempotent_and_never_creates on a one-record
store, also exercising the empty-store non-creation case. -/
theorem reconcile_idempotent_and_never_creates_witness :
    (update (update [pStored]
          [("observation_id", PyVal.str "obs-1"), ("outcome", PyVal.int 1)]).2
        [("observation_id", PyVal.str "obs-1"), ("outcome", PyVal.int 1)]).2
      = (update [pStored]
          [("observation_id", PyVal.str "obs-1"), ("outcome", PyVal.int 1)]).2
    ∧ (update ([] : Store)
        [("observation_id", PyVal.str "obs-9"), ("outcome", PyVal.int 0)]).2
      = ([] : Store) := by
  have h := reconcile_idempotent_and_never_creates [] [] pStored "obs-1" 1
    (by intro r hr; cases hr) rfl
  exact ⟨h.1, h.2.1 [] _ (PyVal.str "obs-9") rfl rfl⟩

/-- Claim C8: reconciling a stored id returns exactly the payload with
the requested id, the newly supplied outcome value verbatim, and the
originally stored prediction. -/
theorem reconcile_success_payload_shape
    (pre post : Store) (p : Prediction) (s : String) (outv : PyVal)
    (tc : Option Int)
    (hpre : ∀ r ∈ pre, r.observation_id ≠ s) (hp : p.observation_id = s)
    (htc : saveTrueClass outv = .ok tc) :
    (update (pre ++ p :: post)
        [("observation_id", PyVal.str s), ("outcome", outv)]).1
      = HandlerResult.payload (.dict [("observation_id", .str s),
          ("outcome", outv),
          ("predicted_outcome", .float p.prediction)]) := by
  have h := update_found pre post p s outv tc hpre hp htc
  rw [h, hp]

/-- Witness for reconcile_success_payload_shape on a one-record store
with outcome 1, matching the spec example scenario. -/
theorem reconcile_success_payload_shape_witness :
    saveTrueClass (PyVal.int 1) = Except.ok (some 1)
    ∧ (update [pStored]
        [("observation_id", PyVal.str "obs-1"), ("outcome", PyVal.int 1)]).1
      = HandlerResult.payload (.dict [("observation_id", .str "obs-1"),
          ("outcome", PyVal.int 1),
          ("predicted_outcome", .float 1)]) := by
  have h := reconcile_success_payload_shape [] [] pStored "obs-1"
    (PyVal.int 1) (some 1) (by intro r hr; cases hr) rfl rfl
  exact ⟨rfl, h⟩

/-- Validation fails whenever some required column holds a value whose
runtime class is outside the allowed list of that column. -/
theorem verify_fails_of_wrong_kind (data : List (String × PyVal))
    (col : String) (exp : List PyKind) (w : PyVal)
    (hmem : (col, exp) ∈ expected_types)
    (hw : dictGet data col = some w) (hk : w.kind ∉ exp) :
    (verify_data_types data).1 = true := by
  by_contra hne
  rw [Bool.not_eq_true] at hne
  obtain ⟨v, hv, hkv⟩ :=
    (verifyGo_fst_false_iff data expected_types).mp hne (col, exp) hmem
  rw [hw] at hv
  injection hv with hv
  subst hv
  exact hk hkv

/-- Claim C9: membership is checked on the exact runtime class, not by
subtyping: a boolean under Latitude or Longitude fails validation even
though Python bool subclasses int, and an integer under the policing
operation column fails as well; when the earlier columns are well formed
the reported error is the Latitude wrong-type message naming the allowed
classes and bool. -/
theorem validation_exact_type_membership (data : List (String × PyVal)) :
    ((∃ b, dictGet data "Latitude" = some (.bool b)) →
        (verify_data_types data).1 = true)
    ∧ ((∃ b, dictGet data "Longitude" = some (.bool b)) →
        (verify_data_types data).1 = true)
    ∧ ((∃ n, dictGet data "Part of a policing operation" = some (.int n)) →
        (verify_data_types data).1 = true)
    ∧ ∀ (a c d : String) (e b : Bool),
        dictGet data "observation_id" = some (.str a) →
        dictGet data "Type" = some (.str c) →
        dictGet data "Date" = some (.str d) →
        dictGet data "Part of a policing operation" = some (.bool e) →
        dictGet data "Latitude" = some (.bool b) →
        verify_data_types data
          = (true, .dict [("error",
              .str ("Latitude column has wrong data type. Expected "
                ++ kindListRepr [PyKind.kfloat, PyKind.kint]
                ++ ", got " ++ PyKind.typeRepr PyKind.kbool))]) := by
  refine ⟨?_, ?_, ?_, ?_⟩
  · rintro ⟨b, hb⟩
    exact verify_fails_of_wrong_kind data "Latitude" [.kfloat, .kint] (.bool b)
      (by simp [expected_types]) hb (by simp [PyVal.kind])
  · rintro ⟨b, hb⟩
    exact verify_fails_of_wrong_kind data "Longitude" [.kfloat, .kint] (.bool b)
      (by simp [expected_types]) hb (by simp [PyVal.kind])
  · rintro ⟨n, hn⟩
    exact verify_fails_of_wrong_kind data "Part of a policing operation"
      [.kbool] (.int n) (by simp [expected_types]) hn (by simp [PyVal.kind])
  · intro a c d e b h1 h2 h3 h4 h5
    show verifyGo data expected_types = _
    simp [verifyGo, expected_types, h1, h2, h3, h4, h5, PyVal.kind]

/-- The spec example observation with a boolean under Latitude. -/
def obsLatBool : List (String × PyVal) :=
  [ ("observation_id", .str "obs-2"),
    ("Type", .str "Person search"),
    ("Date", .str "2023-01-01"),
    ("Part of a policing operation", .bool false),
    ("Latitude", .bool true),
    ("Longitude", .float (-1 / 10)),
    ("Gender", .str "Male"),
    ("Age range", .str "18-24"),
    ("Officer-defined ethnicity", .str "White"),
    ("Legislation", .str "Misuse of Drugs Act 1971"),
    ("Object of search", .str "Controlled drugs"),
    ("station", .str "metropolitan") ]

/-- Witness for validation_exact_type_membership: a boolean Latitude and
an integer policing flag both fail, and the Latitude error message is the
exact wrong-type string. -/
theorem validation_exact_type_membership_witness :
    (verify_data_types obsLatBool).1 = true
    ∧ (verify_data_types [("Part of a policing operation", PyVal.int 1)]).1 = true
    ∧ verify_data_types obsLatBool
      = (true, .dict [("error",
          .str "Latitude column has wrong data type. Expected [<class \x27float\x27>, <class \x27int\x27>], got <class \x27bool\x27>")]) := by
  refine ⟨(validation_exact_type_membership obsLatBool).1 ⟨true, rfl⟩,
    (validation_exact_type_membership
      [("Part of a policing operation", PyVal.int 1)]).2.2.1 ⟨1, rfl⟩, ?_⟩
  exact (validation_exact_type_membership obsLatBool).2.2.2
    "obs-2" "Person search" "2023-01-01" false true rfl rfl rfl rfl rfl

/-- Claim C10: validation succeeds on any mapping whose twelve required
fields carry allowed kinds, regardless of extra fields appended after
them; the whole mapping, extras included, is what is handed to the
scoring coercion, and the stored observation column is the raw request
body verbatim. -/
theorem validation_ignores_extra_fields
    (clf : Classifier) (store : Store) (raw : String)
    (data extras row : List (String × PyVal)) (s : String)
    (hvalid : ∀ ce ∈ expected_types,
        ∃ v, dictGet data ce.1 = some v ∧ v.kind ∈ ce.2)
    (hid : dictGet data "observation_id" = some (.str s))
    (hfresh : ∀ r ∈ store, r.observation_id ≠ s)
    (hco : clf.coerce (data ++ extras) = .ok row) :
    (verify_data_types (data ++ extras)).1 = false
    ∧ predict clf store raw (data ++ extras)
        = (.payload (.dict [("outcome", .bool (decide (clf.predict row ≠ 0)))]),
           store ++ [{ observation_id := s, observation := raw,
                       prediction := clf.predict row,
                       proba := clf.predict_proba row,
                       true_class := Option.none }]) := by
  have hval2 : (verify_data_types (data ++ extras)).1 = false := by
    refine (verifyGo_fst_false_iff (data ++ extras) expected_types).mpr ?_
    intro ce hce
    obtain ⟨v, hv, hk⟩ := hvalid ce hce
    exact ⟨v, dictGet_append_of_some data extras ce.1 v hv, hk⟩
  exact ⟨hval2,
    predict_success clf store raw (data ++ extras) row s hval2
      (dictGet_append_of_some data extras "observation_id" _ hid) hco hfresh⟩

/-- Witness for validation_ignores_extra_fields: the spec example
observation extended with two unknown fields still validates, scores, and
is stored with the raw body verbatim. -/
theorem validation_ignores_extra_fields_witness :
    (verify_data_types (obsValid
        ++ [("notes", PyVal.str "extra"), ("count", PyVal.int 7)])).1 = false
    ∧ predict clfZero ([] : Store) "body-x"
        (obsValid ++ [("notes", PyVal.str "extra"), ("count", PyVal.int 7)])
      = (HandlerResult.payload (.dict [("outcome", .bool false)]),
         [{ observation_id := "obs-1", observation := "body-x",
            prediction := 0, proba := 0, true_class := Option.none }]) := by
  have h := validation_ignores_extra_fields clfZero [] "body-x" obsValid
    [("notes", PyVal.str "extra"), ("count", PyVal.int 7)]
    (obsValid ++ [("notes", PyVal.str "extra"), ("count", PyVal.int 7)])
    "obs-1"
    ((verifyGo_fst_false_iff obsValid expected_types).mp rfl) rfl
    (by intro r hr; cases hr) rfl
  exact ⟨h.1, h.2⟩
